import Mathlib

/-!
# HelpHub ticket store — verification of the specification

Shallow embedding of the in-memory ("mock") backend of `database_manager.py`
and the ticket-volume aggregation of `dashboard.py`, together with theorems
settling the spec's claims about them.

Modelling conventions:
* A Python ticket dict is the structure `Ticket`; the optional keys
  `resolution` and `assigned_to` (absent until first written) are `Option String`
  fields, `none` meaning the key is absent.
* `datetime.now()` is modelled as a `Nat` count of seconds since the epoch,
  passed explicitly to the operations that read the clock.  ISO-8601 strings of
  such timestamps compare exactly like the underlying numbers, so the list kept
  sorted by `created_at` strings is modelled as a list sorted by these `Nat`s.
* Python truthiness of an optional string (`if resolution:`) is `truthy`.
* The store state is the `mock_tickets` list; mutating methods return the pair
  (python return value, new list).
-/

namespace HelpHub

/-- A ticket record, as built by `create_ticket` / `_generate_mock_data` in
`database_manager.py`.  `resolution` and `assigned_to` are `none` while the
corresponding dict key is absent. -/
structure Ticket where
  id : String
  user_id : Int
  username : String
  issue : String
  summary : String
  category : String
  priority : String
  sentiment : String
  status : String
  resolution : Option String
  assigned_to : Option String
  created_at : Nat
deriving DecidableEq, Repr

/-- Python truthiness of an optional string: `None` and `""` are falsy. -/
def truthy : Option String → Bool
  | none => false
  | some s => s ≠ ""

/-- `get_ticket` (database_manager.py line 96): first ticket with the given id,
`None` when absent. -/
def get_ticket (ticket_id : String) (tickets : List Ticket) : Option Ticket :=
  tickets.find? (fun t => t.id == ticket_id)

/-- The `ticket_data` dict built by `create_ticket` (lines 68-72): id is
`f"TK-{int(datetime.now().timestamp())}"`, status is `"open"`, `created_at`
is the current time; no `resolution` / `assigned_to` key. -/
def mkTicketData (now : Nat) (user_id : Int)
    (username issue summary category priority sentiment : String) : Ticket :=
  { id := "TK-" ++ toString now, user_id := user_id, username := username,
    issue := issue, summary := summary, category := category,
    priority := priority, sentiment := sentiment, status := "open",
    resolution := none, assigned_to := none, created_at := now }

/-- `create_ticket`, mock branch (lines 64-84): builds `ticket_data`, inserts it
at index 0 and returns the generated id. -/
def create_ticket (now : Nat) (user_id : Int)
    (username issue summary category priority sentiment : String)
    (tickets : List Ticket) : String × List Ticket :=
  ("TK-" ++ toString now,
    mkTicketData now user_id username issue summary category priority sentiment
      :: tickets)

/-- The `ticket.update(update_data)` effect of `update_ticket_status`
(lines 104-106, 116): always writes `status`; writes `resolution` only when the
argument is truthy. -/
def applyUpdate (status : String) (resolution : Option String) (t : Ticket) :
    Ticket :=
  if truthy resolution then { t with status := status, resolution := resolution }
  else { t with status := status }

/-- `update_ticket_status`, mock branch (lines 101-119): scans the list, updates
the first ticket whose id matches and returns `True`; returns `False` when no
ticket matches. -/
def update_ticket_status (ticket_id status : String) (resolution : Option String) :
    List Ticket → Bool × List Ticket
  | [] => (false, [])
  | t :: ts =>
    if t.id == ticket_id then (true, applyUpdate status resolution t :: ts)
    else
      let r := update_ticket_status ticket_id status resolution ts
      (r.1, t :: r.2)

/-- `assign_ticket` (lines 218-220):
`return self.update_ticket_status(ticket_id, self.get_ticket(ticket_id)["status"], resolution=self.get_ticket(ticket_id).get("resolution"))`.
When `get_ticket` returns `None`, subscripting it raises `TypeError`, modelled
as `Except.error`; the `assigned_to` argument is never used. -/
def assign_ticket (ticket_id assigned_to : String) (tickets : List Ticket) :
    Except String (Bool × List Ticket) :=
  match get_ticket ticket_id tickets with
  | none => Except.error "TypeError: NoneType object is not subscriptable"
  | some t => Except.ok (update_ticket_status ticket_id t.status t.resolution tickets)

/-- `get_all_tickets`, mock branch (lines 136-147): optional status filter
(applied only when the argument is truthy), then truncation to `limit`. -/
def get_all_tickets (status : Option String) (limit : Nat)
    (tickets : List Ticket) : List Ticket :=
  let filtered : List Ticket :=
    match status with
    | some st => if st ≠ "" then tickets.filter (fun t => t.status == st) else tickets
    | none => tickets
  filtered.take limit

/-- The `stats` dict of `get_ticket_stats` (line 154). `open` is a Lean keyword,
so that field is `open_`. -/
structure Stats where
  total : Nat
  open_ : Nat
  resolved : Nat
  forwarded : Nat
deriving DecidableEq, Repr

/-- One iteration of the loop in `get_ticket_stats` (lines 158-160):
`if ticket.get("status") in stats: stats[ticket["status"]] += 1`.  The dict
keys are `total`, `open`, `resolved`, `forwarded`, so a ticket whose status is
the string `"total"` increments the `total` counter a second time. -/
def statsStep (acc : Stats) (t : Ticket) : Stats :=
  if t.status == "total" then { acc with total := acc.total + 1 }
  else if t.status == "open" then { acc with open_ := acc.open_ + 1 }
  else if t.status == "resolved" then { acc with resolved := acc.resolved + 1 }
  else if t.status == "forwarded" then { acc with forwarded := acc.forwarded + 1 }
  else acc

/-- `get_ticket_stats` (lines 152-161): zero-initialised counters, `total` set
to the length of `get_all_tickets(limit=10000)`, then the counting loop. -/
def get_ticket_stats (tickets : List Ticket) : Stats :=
  let all := get_all_tickets none 10000 tickets
  all.foldl statsStep { total := all.length, open_ := 0, resolved := 0, forwarded := 0 }

/-- `get_tickets_by_date_range`, mock branch (lines 205-213): tickets whose
`created_at` lies in the inclusive range, in store order. -/
def get_tickets_by_date_range (start_date end_date : Nat)
    (tickets : List Ticket) : List Ticket :=
  tickets.filter (fun t => start_date ≤ t.created_at && t.created_at ≤ end_date)

/-- `.date()` / daily resampling: the calendar day of a timestamp. -/
def dayOf (ts : Nat) : Nat := ts / 86400

/-- `get_ticket_volume_chart` (dashboard.py lines 65-76), data series only.
`start_date, end_date = now - days, now`; the window tickets come from
`get_tickets_by_date_range`; when that list is empty the function returns a
"No Ticket Data" placeholder figure carrying no data series, modelled as
`none`.  Otherwise pandas `resample("D").size()` then
`reindex(date_range(start.date(), end.date()), fill_value=0)` yields, for each
calendar day from `start.date()` to `end.date()` inclusive, the number of
window tickets created on that day (0 when none), modelled as the `some` list
of (day, count) pairs. -/
def get_ticket_volume_chart (timeframe_days now : Nat) (tickets : List Ticket) :
    Option (List (Nat × Nat)) :=
  let start_date := now - timeframe_days * 86400
  let windowTickets := get_tickets_by_date_range start_date now tickets
  if windowTickets.isEmpty then none
  else
    some ((List.range (dayOf now - dayOf start_date + 1)).map
      (fun i => (dayOf start_date + i,
        (windowTickets.filter
          (fun t => dayOf t.created_at == dayOf start_date + i)).length)))

/-- The final sort of `_generate_mock_data` (line 62):
`self.mock_tickets.sort(key=lambda x: x["created_at"], reverse=True)` — a
stable descending sort by `created_at`, applied to the 30 randomly generated
tickets (here: an arbitrary list `raw`). -/
def sortTickets (raw : List Ticket) : List Ticket :=
  raw.mergeSort (fun a b => b.created_at ≤ a.created_at)

/-- The list is ordered newest-first by `created_at`. -/
def newestFirst (tickets : List Ticket) : Prop :=
  List.Pairwise (fun a b : Nat => b ≤ a) (tickets.map Ticket.created_at)

/-- A concrete open ticket, in the shape `_generate_mock_data` produces. -/
def sampleTicket : Ticket :=
  { id := "TK-1000", user_id := 123, username := "user123",
    issue := "Sample issue #1",
    summary := "This is a sample ticket summary for demonstration purposes #1",
    category := "Billing", priority := "High", sentiment := "Neutral",
    status := "open", resolution := none, assigned_to := none,
    created_at := 950000 }

/-- A concrete resolved ticket that already carries a resolution note. -/
def sampleResolved : Ticket :=
  { id := "TK-1001", user_id := 456, username := "customer456",
    issue := "Sample issue #2",
    summary := "This is a sample ticket summary for demonstration purposes #2",
    category := "Account", priority := "Low", sentiment := "Positive",
    status := "resolved", resolution := some "cleared cache",
    assigned_to := none, created_at := 940000 }

/-! ## Helper lemmas about the store operations -/

lemma applyUpdate_id (st : String) (res : Option String) (t : Ticket) :
    (applyUpdate st res t).id = t.id := by
  unfold applyUpdate; split <;> rfl

lemma applyUpdate_created_at (st : String) (res : Option String) (t : Ticket) :
    (applyUpdate st res t).created_at = t.created_at := by
  unfold applyUpdate; split <;> rfl

lemma update_found (i0 st : String) (res : Option String) (l : List Ticket)
    (t : Ticket) (h : get_ticket i0 l = some t) :
    (update_ticket_status i0 st res l).1 = true ∧
    get_ticket i0 (update_ticket_status i0 st res l).2
      = some (applyUpdate st res t) := by
  induction l with
  | nil => simp [get_ticket] at h
  | cons a ts ih =>
    rw [get_ticket, List.find?_cons] at h
    cases ha : (a.id == i0) with
    | true =>
      rw [ha] at h
      obtain rfl : a = t := by injection h
      have hid : ((applyUpdate st res a).id == i0) = true := by
        rw [applyUpdate_id]; exact ha
      simp [update_ticket_status, ha, get_ticket, List.find?_cons, hid]
    | false =>
      rw [ha] at h
      obtain ⟨h1, h2⟩ := ih h
      rw [get_ticket] at h2
      simp [update_ticket_status, ha, get_ticket, List.find?_cons, h1, h2]

lemma update_not_found (i0 st : String) (res : Option String) (l : List Ticket)
    (h : get_ticket i0 l = none) :
    (update_ticket_status i0 st res l).1 = false ∧
    (update_ticket_status i0 st res l).2 = l := by
  induction l with
  | nil => simp [update_ticket_status]
  | cons a ts ih =>
    rw [get_ticket, List.find?_cons] at h
    cases ha : (a.id == i0) with
    | true => rw [ha] at h; simp at h
    | false =>
      rw [ha] at h
      obtain ⟨h1, h2⟩ := ih h
      simp [update_ticket_status, ha, h1, h2]

lemma update_map_created_at (i0 st : String) (res : Option String)
    (l : List Ticket) :
    (update_ticket_status i0 st res l).2.map Ticket.created_at
      = l.map Ticket.created_at := by
  induction l with
  | nil => rfl
  | cons a ts ih =>
    cases ha : (a.id == i0) with
    | true => simp [update_ticket_status, ha, applyUpdate_created_at]
    | false => simp [update_ticket_status, ha, ih]

lemma statsStep_fields (a : Stats) (t : Ticket) :
    statsStep a t
      = { total := a.total + (if t.status == "total" then 1 else 0),
          open_ := a.open_ + (if t.status == "open" then 1 else 0),
          resolved := a.resolved + (if t.status == "resolved" then 1 else 0),
          forwarded := a.forwarded + (if t.status == "forwarded" then 1 else 0) } := by
  unfold statsStep
  by_cases h1 : t.status == "total" <;> by_cases h2 : t.status == "open" <;>
    by_cases h3 : t.status == "resolved" <;> by_cases h4 : t.status == "forwarded" <;>
    simp_all [beq_iff_eq]

lemma foldl_statsStep (l : List Ticket) (a : Stats) :
    l.foldl statsStep a
      = { total := a.total + l.countP (fun t => t.status == "total"),
          open_ := a.open_ + l.countP (fun t => t.status == "open"),
          resolved := a.resolved + l.countP (fun t => t.status == "resolved"),
          forwarded := a.forwarded + l.countP (fun t => t.status == "forwarded") } := by
  induction l generalizing a with
  | nil => simp
  | cons t ts ih =>
    rw [List.foldl_cons, ih, statsStep_fields]
    simp only [List.countP_cons]
    congr 1 <;> omega

lemma get_ticket_stats_eq (s : List Ticket) :
    get_ticket_stats s
      = { total := (s.take 10000).length
            + (s.take 10000).countP (fun t => t.status == "total"),
          open_ := (s.take 10000).countP (fun t => t.status == "open"),
          resolved := (s.take 10000).countP (fun t => t.status == "resolved"),
          forwarded := (s.take 10000).countP (fun t => t.status == "forwarded") } := by
  unfold get_ticket_stats
  rw [show get_all_tickets none 10000 s = s.take 10000 from rfl, foldl_statsStep]
  simp

lemma length_eq_three_counts (l : List Ticket)
    (h : ∀ t ∈ l, t.status = "open" ∨ t.status = "resolved" ∨ t.status = "forwarded") :
    l.length = l.countP (fun t => t.status == "open")
      + l.countP (fun t => t.status == "resolved")
      + l.countP (fun t => t.status == "forwarded")
    ∧ l.countP (fun t => t.status == "total") = 0 := by
  induction l with
  | nil => simp
  | cons t ts ih =>
    obtain ⟨h1, h2⟩ := ih (fun x hx => h x (List.mem_cons_of_mem t hx))
    have ht := h t (List.mem_cons_self t ts)
    simp only [List.length_cons, List.countP_cons]
    rcases ht with h3 | h3 | h3 <;> simp [h3, h1, h2] <;> omega

lemma newestFirst_sublist {l1 l2 : List Ticket} (hsub : l1.Sublist l2)
    (h : newestFirst l2) : newestFirst l1 :=
  List.Pairwise.sublist (hsub.map Ticket.created_at) h

/-! ## Claim theorems -/

/-- C1 (code bug): on a ticket present in the store, `assign_ticket` returns
`True` but the store is completely unchanged — in particular the ticket's
`assigned_to` stays absent (`none`) instead of becoming `"agent_bob"`, because
line 220 never uses the `assigned_to` argument. -/
theorem assign_ticket_does_not_set_assigned_to :
    assign_ticket "TK-1000" "agent_bob" [sampleTicket]
        = Except.ok (true, [sampleTicket]) ∧
    sampleTicket.assigned_to = none := by
  constructor
  · rfl
  · rfl

/-- C5 (code bug): on an id absent from the store, `assign_ticket` evaluates
`self.get_ticket(ticket_id)["status"]` with `get_ticket` returning `None`,
which raises `TypeError` to the caller instead of returning `False`. -/
theorem assign_ticket_missing_id_raises :
    assign_ticket "TK-404" "agent_bob" [sampleTicket]
      = Except.error "TypeError: NoneType object is not subscriptable" := rfl

/-- C3: `get_ticket` applied to the id and store returned by `create_ticket`
yields exactly the record built from the arguments: the seven payload fields
equal the arguments, `status` is `"open"`, `resolution` and `assigned_to` are
absent, and the only other fields are the generated id and `created_at`. -/
theorem create_then_get (now : Nat) (uid : Int) (un i1 su ca pr se : String)
    (s : List Ticket) :
    get_ticket (create_ticket now uid un i1 su ca pr se s).1
        (create_ticket now uid un i1 su ca pr se s).2
      = some { id := "TK-" ++ toString now, user_id := uid, username := un,
               issue := i1, summary := su, category := ca, priority := pr,
               sentiment := se, status := "open", resolution := none,
               assigned_to := none, created_at := now } := by
  simp [create_ticket, get_ticket, mkTicketData, List.find?_cons]

/-- C4: for an id present in the store, `update_ticket_status(id, "resolved",
"note")` returns `True` and the ticket read back has `status = "resolved"`,
`resolution = "note"` and every other field unchanged; with the resolution
argument omitted (`None`) only `status` changes; for an absent id it returns
`False`. -/
theorem update_ticket_status_spec (i0 : String) (s : List Ticket) :
    (∀ t, get_ticket i0 s = some t →
        (update_ticket_status i0 "resolved" (some "note") s).1 = true ∧
        get_ticket i0 (update_ticket_status i0 "resolved" (some "note") s).2
          = some { t with status := "resolved", resolution := some "note" }) ∧
    (∀ t st, get_ticket i0 s = some t →
        (update_ticket_status i0 st none s).1 = true ∧
        get_ticket i0 (update_ticket_status i0 st none s).2
          = some { t with status := st }) ∧
    (get_ticket i0 s = none →
        (update_ticket_status i0 "resolved" (some "note") s).1 = false) := by
  refine ⟨?_, ?_, ?_⟩
  · intro t h
    have hres := update_found i0 "resolved" (some "note") s t h
    rwa [show applyUpdate "resolved" (some "note") t
        = { t with status := "resolved", resolution := some "note" } from
      by unfold applyUpdate; rw [if_pos (by decide)]] at hres
  · intro t st h
    have hres := update_found i0 st none s t h
    rwa [show applyUpdate st none t = { t with status := st } from rfl] at hres
  · intro h
    exact (update_not_found i0 "resolved" (some "note") s h).1

/-- Witness for C4: the concrete single-ticket store. -/
theorem update_ticket_status_spec_witness :
    (update_ticket_status "TK-1000" "resolved" (some "note") [sampleTicket]).1
        = true ∧
    get_ticket "TK-1000"
        (update_ticket_status "TK-1000" "resolved" (some "note") [sampleTicket]).2
      = some { sampleTicket with status := "resolved", resolution := some "note" } :=
  (update_ticket_status_spec "TK-1000" [sampleTicket]).1 sampleTicket (by decide)

/-- C9: passing the empty string as resolution is falsy in
`if resolution:`, so only `status` is written and the stored resolution is
kept; the call still returns `True` for a present id. -/
theorem update_empty_resolution (i0 st : String) (s : List Ticket) (t : Ticket)
    (h : get_ticket i0 s = some t) :
    (update_ticket_status i0 st (some "") s).1 = true ∧
    get_ticket i0 (update_ticket_status i0 st (some "") s).2
      = some { t with status := st } := by
  have hres := update_found i0 st (some "") s t h
  rwa [show applyUpdate st (some "") t = { t with status := st } from
    by unfold applyUpdate; rw [if_neg (by decide)]] at hres

/-- Witness for C9: a ticket that already has a resolution note keeps it. -/
theorem update_empty_resolution_witness :
    (update_ticket_status "TK-1001" "forwarded" (some "") [sampleResolved]).1
        = true ∧
    get_ticket "TK-1001"
        (update_ticket_status "TK-1001" "forwarded" (some "") [sampleResolved]).2
      = some { sampleResolved with status := "forwarded" } :=
  update_empty_resolution "TK-1001" "forwarded" [sampleResolved] sampleResolved
    (by decide)

/-- C2 (counterexample): two `create_ticket` calls within the same clock
second build the same `f"TK-{int(datetime.now().timestamp())}"` id, so the id
returned by the second call is already the id of a ticket in the store. -/
theorem create_ticket_duplicate_id :
    (create_ticket 12345 7 "alice" "login fails" "cannot log in" "Account"
        "High" "Negative"
        (create_ticket 12345 5 "bob" "billing question" "billing summary"
          "Billing" "Low" "Neutral" []).2).1
      ∈ (create_ticket 12345 5 "bob" "billing question" "billing summary"
          "Billing" "Low" "Neutral" []).2.map Ticket.id := by
  decide

/-- C2 (amended): the id returned by `create_ticket` is distinct from every id
already in the store — and id-uniqueness of the store is preserved — provided
no stored ticket already carries the id derived from the current clock second
(in particular creates at pairwise distinct clock seconds keep all ids
unique). -/
theorem create_ticket_fresh_id (now : Nat) (uid : Int)
    (un i1 su ca pr se : String) (s : List Ticket)
    (h1 : ∀ t ∈ s, t.id ≠ "TK-" ++ toString now)
    (h2 : (s.map Ticket.id).Nodup) :
    (create_ticket now uid un i1 su ca pr se s).1 ∉ s.map Ticket.id ∧
    ((create_ticket now uid un i1 su ca pr se s).2.map Ticket.id).Nodup := by
  have hnotin : ("TK-" ++ toString now) ∉ s.map Ticket.id := by
    intro hmem
    obtain ⟨t, ht, hid⟩ := List.mem_map.mp hmem
    exact h1 t ht hid
  refine ⟨hnotin, ?_⟩
  rw [create_ticket]
  simpa [mkTicketData, List.nodup_cons] using ⟨h1, h2⟩

/-- Witness for C2 (amended): a fresh clock second against the sample store. -/
theorem create_ticket_fresh_id_witness :
    (create_ticket 2000 7 "alice" "login fails" "cannot log in" "Account"
        "High" "Negative" [sampleTicket]).1 ∉ [sampleTicket].map Ticket.id ∧
    ((create_ticket 2000 7 "alice" "login fails" "cannot log in" "Account"
        "High" "Negative" [sampleTicket]).2.map Ticket.id).Nodup :=
  create_ticket_fresh_id 2000 7 "alice" "login fails" "cannot log in"
    "Account" "High" "Negative" [sampleTicket] (by decide) (by decide)

/-- C8: `get_ticket_stats` satisfies `total = open + resolved + forwarded`
whenever every stored ticket has a recognized status.  Unconditionally,
`total` is the length of the scanned listing plus the extra increments the
`if ticket.get("status") in stats:` quirk adds for tickets whose status is the
literal string `"total"` — so every ticket, in particular one with an
unrecognized status, is counted in `total` — and each of the three per-status
counters counts exactly the tickets with that literal status, so a ticket
with an unrecognized status is counted in none of them. -/
theorem get_ticket_stats_spec (s : List Ticket) :
    ((∀ t ∈ s, t.status = "open" ∨ t.status = "resolved" ∨ t.status = "forwarded") →
        (get_ticket_stats s).total
          = (get_ticket_stats s).open_ + (get_ticket_stats s).resolved
            + (get_ticket_stats s).forwarded) ∧
    (get_ticket_stats s).total
        = (s.take 10000).length
          + (s.take 10000).countP (fun t => t.status == "total") ∧
    (get_ticket_stats s).open_
        = (s.take 10000).countP (fun t => t.status == "open") ∧
    (get_ticket_stats s).resolved
        = (s.take 10000).countP (fun t => t.status == "resolved") ∧
    (get_ticket_stats s).forwarded
        = (s.take 10000).countP (fun t => t.status == "forwarded") := by
  rw [get_ticket_stats_eq]
  refine ⟨?_, rfl, rfl, rfl, rfl⟩
  intro h
  have htake : ∀ t ∈ s.take 10000,
      t.status = "open" ∨ t.status = "resolved" ∨ t.status = "forwarded" :=
    fun t ht => h t (List.take_subset 10000 s ht)
  obtain ⟨hlen, hzero⟩ := length_eq_three_counts (s.take 10000) htake
  simp [hlen, hzero]

/-- Witness for C8: a store whose two tickets both have recognized statuses. -/
theorem get_ticket_stats_spec_witness :
    (get_ticket_stats [sampleTicket, sampleResolved]).total
      = (get_ticket_stats [sampleTicket, sampleResolved]).open_
        + (get_ticket_stats [sampleTicket, sampleResolved]).resolved
        + (get_ticket_stats [sampleTicket, sampleResolved]).forwarded :=
  (get_ticket_stats_spec [sampleTicket, sampleResolved]).1 (by decide)

lemma sorted_sortTickets (raw : List Ticket) : newestFirst (sortTickets raw) := by
  unfold newestFirst sortTickets
  rw [List.pairwise_map]
  have htrans : ∀ a b c : Ticket,
      ((fun a b : Ticket => (decide (b.created_at ≤ a.created_at))) a b = true) →
      ((fun a b : Ticket => (decide (b.created_at ≤ a.created_at))) b c = true) →
      ((fun a b : Ticket => (decide (b.created_at ≤ a.created_at))) a c = true) := by
    intro a b c h1 h2
    simp only [decide_eq_true_eq] at h1 h2 ⊢
    omega
  have htotal : ∀ a b : Ticket,
      (((fun a b : Ticket => (decide (b.created_at ≤ a.created_at))) a b
        || (fun a b : Ticket => (decide (b.created_at ≤ a.created_at))) b a) = true) := by
    intro a b
    simp only [Bool.or_eq_true, decide_eq_true_eq]
    omega
  have h := List.sorted_mergeSort htrans htotal raw
  exact h.imp (fun hab => by simpa using hab)

/-- C7: on a newest-first store (the invariant every reachable mock store
satisfies, claim C10), `get_all_tickets` returns only tickets matching a
truthy status filter, keeps the newest-first order, and yields at most `limit`
tickets; with no filter it is exactly the store truncated to `limit`. -/
theorem get_all_tickets_ordered (st : String) (limit : Nat) (s : List Ticket)
    (h : newestFirst s) :
    (∀ t ∈ get_all_tickets (some st) limit s, st ≠ "" → t.status = st) ∧
    newestFirst (get_all_tickets (some st) limit s) ∧
    (get_all_tickets (some st) limit s).length ≤ limit ∧
    get_all_tickets none limit s = s.take limit ∧
    newestFirst (get_all_tickets none limit s) ∧
    (get_all_tickets none limit s).length ≤ limit := by
  have hfil : ∀ st0 : String,
      newestFirst (s.filter (fun t => t.status == st0)) :=
    fun st0 => newestFirst_sublist (List.filter_sublist s) h
  refine ⟨?_, ?_, ?_, rfl, ?_, ?_⟩
  · intro t ht hne
    rw [get_all_tickets] at ht
    simp only [if_pos hne] at ht
    have hmem0 := List.take_subset limit _ ht
    have hmem := List.mem_filter.mp hmem0
    simpa using hmem.2
  · rw [get_all_tickets]
    by_cases hne : st ≠ ""
    · simp only [if_pos hne]
      exact newestFirst_sublist (List.take_sublist _ _) (hfil st)
    · simp only [if_neg hne]
      exact newestFirst_sublist (List.take_sublist _ _) h
  · rw [get_all_tickets]
    by_cases hne : st ≠ "" <;> simp [hne, List.length_take]
  · exact newestFirst_sublist (List.take_sublist _ _) h
  · show (s.take limit).length ≤ limit
    simp [List.length_take]

/-- Witness for C7: the two-ticket newest-first store with an "open" filter. -/
theorem get_all_tickets_ordered_witness :
    (∀ t ∈ get_all_tickets (some "open") 100 [sampleTicket, sampleResolved],
        "open" ≠ "" → t.status = "open") ∧
    newestFirst (get_all_tickets (some "open") 100 [sampleTicket, sampleResolved]) ∧
    (get_all_tickets (some "open") 100 [sampleTicket, sampleResolved]).length ≤ 100 ∧
    get_all_tickets none 100 [sampleTicket, sampleResolved]
      = [sampleTicket, sampleResolved].take 100 ∧
    newestFirst (get_all_tickets none 100 [sampleTicket, sampleResolved]) ∧
    (get_all_tickets none 100 [sampleTicket, sampleResolved]).length ≤ 100 :=
  get_all_tickets_ordered "open" 100 [sampleTicket, sampleResolved]
    (by unfold newestFirst; decide)

/-- C10: the newest-first invariant of the mock backend.  The seeding sort
produces a newest-first list; `create_ticket` under a non-decreasing clock
prepends a ticket stamped `now`, keeping the order; `update_ticket_status`
leaves the `created_at` sequence (hence the order) untouched; and a
successful `assign_ticket` does the same. -/
theorem newest_first_invariant :
    (∀ raw : List Ticket, newestFirst (sortTickets raw)) ∧
    (∀ (now : Nat) (uid : Int) (un i1 su ca pr se : String) (s : List Ticket),
        newestFirst s → (∀ t ∈ s, t.created_at ≤ now) →
          newestFirst (create_ticket now uid un i1 su ca pr se s).2 ∧
          (create_ticket now uid un i1 su ca pr se s).2.map Ticket.created_at
            = now :: s.map Ticket.created_at) ∧
    (∀ (i0 st : String) (res : Option String) (s : List Ticket),
        (update_ticket_status i0 st res s).2.map Ticket.created_at
            = s.map Ticket.created_at ∧
        (newestFirst s → newestFirst (update_ticket_status i0 st res s).2)) ∧
    (∀ (i0 a0 : String) (s : List Ticket) (r : Bool × List Ticket),
        assign_ticket i0 a0 s = Except.ok r →
          r.2.map Ticket.created_at = s.map Ticket.created_at ∧
          (newestFirst s → newestFirst r.2)) := by
  refine ⟨sorted_sortTickets, ?_, ?_, ?_⟩
  · intro now uid un i1 su ca pr se s h h2
    constructor
    · unfold newestFirst create_ticket
      rw [List.map_cons, List.pairwise_cons]
      refine ⟨?_, h⟩
      intro b hb
      obtain ⟨t, ht, rfl⟩ := List.mem_map.mp hb
      exact h2 t ht
    · rfl
  · intro i0 st res s
    have hmap := update_map_created_at i0 st res s
    refine ⟨hmap, ?_⟩
    intro hnf
    unfold newestFirst at hnf ⊢
    rw [hmap]
    exact hnf
  · intro i0 a0 s r hok
    unfold assign_ticket at hok
    cases hget : get_ticket i0 s with
    | none => rw [hget] at hok; exact absurd hok (by simp)
    | some t =>
      rw [hget] at hok
      have hr : r = update_ticket_status i0 t.status t.resolution s := by
        injection hok with h; exact h.symm
      subst hr
      have hmap := update_map_created_at i0 t.status t.resolution s
      refine ⟨hmap, ?_⟩
      intro hnf
      unfold newestFirst at hnf ⊢
      rw [hmap]
      exact hnf

/-- Witness for C10: creating on top of the sample store at a later clock
keeps the list newest-first. -/
theorem newest_first_invariant_witness :
    newestFirst (create_ticket 960000 7 "alice" "login fails" "cannot log in"
        "Account" "High" "Negative" [sampleTicket]).2 ∧
    (create_ticket 960000 7 "alice" "login fails" "cannot log in" "Account"
        "High" "Negative" [sampleTicket]).2.map Ticket.created_at
      = 960000 :: [sampleTicket].map Ticket.created_at :=
  newest_first_invariant.2.1 960000 7 "alice" "login fails" "cannot log in"
    "Account" "High" "Negative" [sampleTicket]
    (by unfold newestFirst; decide) (by decide)

/-- C6 (counterexample): with no tickets in the queried 7-day window (here an
empty store) `get_ticket_volume_chart` takes the `if not tickets:` early
return and produces the "No Ticket Data" placeholder figure — it carries no
(date, count) series at all, not 8 zero-filled entries. -/
theorem ticket_volume_empty_window :
    get_ticket_volume_chart 7 1728000000 [] = none := rfl

/-- C6 (amended): when at least one ticket lies in the queried window,
`get_ticket_volume_chart 7` yields exactly 8 (day, count) entries covering
the calendar day of `now` and the prior 7 days inclusive, the entry for day
`dayOf now - 7 + j` counting exactly the tickets inside the datetime window
that were created on that day (zero when there are none). -/
theorem ticket_volume_nonempty (now : Nat) (s : List Ticket)
    (h1 : 7 * 86400 ≤ now)
    (h2 : ∃ t ∈ s, now - 7 * 86400 ≤ t.created_at ∧ t.created_at ≤ now) :
    ∃ L, get_ticket_volume_chart 7 now s = some L ∧
      L.length = 8 ∧
      dayOf now - 7 + 7 = dayOf now ∧
      ∀ (j : Nat) (hj : j < L.length),
        (L.get ⟨j, hj⟩).1 = dayOf now - 7 + j ∧
        (L.get ⟨j, hj⟩).2 = (s.filter (fun t =>
            (dayOf t.created_at == dayOf now - 7 + j) &&
            (decide (now - 7 * 86400 ≤ t.created_at)
              && decide (t.created_at ≤ now)))).length := by
  have hstart : dayOf (now - 7 * 86400) = dayOf now - 7 := by
    unfold dayOf
    rw [show 7 * 86400 = 86400 * 7 from by norm_num]
    exact Nat.sub_mul_div now 86400 7 (by omega)
  have h7 : 7 ≤ dayOf now := by
    unfold dayOf
    rw [Nat.le_div_iff_mul_le (by norm_num : 0 < 86400)]
    omega
  have hne : (get_tickets_by_date_range (now - 7 * 86400) now s).isEmpty = false := by
    rw [List.isEmpty_eq_false]
    obtain ⟨t, ht, hw1, hw2⟩ := h2
    intro hnil
    have hmem : t ∈ get_tickets_by_date_range (now - 7 * 86400) now s := by
      unfold get_tickets_by_date_range
      rw [List.mem_filter]
      exact ⟨ht, by simp [hw1, hw2]⟩
    rw [hnil] at hmem
    simp at hmem
  have hchart : get_ticket_volume_chart 7 now s
      = some ((List.range (dayOf now - dayOf (now - 7 * 86400) + 1)).map
          (fun i => (dayOf (now - 7 * 86400) + i,
            ((get_tickets_by_date_range (now - 7 * 86400) now s).filter
              (fun t => dayOf t.created_at == dayOf (now - 7 * 86400) + i)).length))) := by
    unfold get_ticket_volume_chart
    simp only [hne, Bool.false_eq_true, if_false]
  refine ⟨_, hchart, ?_, by omega, ?_⟩
  · simp only [List.length_map, List.length_range]
    omega
  · intro j hj
    simp only [List.length_map, List.length_range] at hj
    simp only [List.get_eq_getElem, List.getElem_map, List.getElem_range]
    constructor
    · rw [hstart]
    · unfold get_tickets_by_date_range
      rw [List.filter_filter, hstart]

/-- Witness for C6 (amended): the sample ticket lies inside the window ending
at its own creation time. -/
theorem ticket_volume_nonempty_witness :
    ∃ L, get_ticket_volume_chart 7 950000 [sampleTicket] = some L ∧
      L.length = 8 ∧
      dayOf 950000 - 7 + 7 = dayOf 950000 ∧
      ∀ (j : Nat) (hj : j < L.length),
        (L.get ⟨j, hj⟩).1 = dayOf 950000 - 7 + j ∧
        (L.get ⟨j, hj⟩).2 = ([sampleTicket].filter (fun t =>
            (dayOf t.created_at == dayOf 950000 - 7 + j) &&
            (decide (950000 - 7 * 86400 ≤ t.created_at)
              && decide (t.created_at ≤ 950000)))).length :=
  ticket_volume_nonempty 950000 [sampleTicket] (by norm_num)
    ⟨sampleTicket, by decide, by decide, by decide⟩

end HelpHub
